import Mathlib

/-!
Verification of the PDF report generation engine (`tools/pdf_tool.py` and the
`create_pdf_wrapper` integration in `app.py`) of the mcp-data-assistant
repository, by a shallow embedding in Lean.

Python values flowing through the tool (JSON-like payloads) are embedded as
the inductive type `Value`.  Python dictionaries are embedded as
insertion-ordered association lists (CPython dicts preserve insertion order
and have unique keys).  The filesystem and the temporary-file allocator are
embedded as an explicit `World` state threaded through the operations, so
that file creation and deletion are observable.  Exceptions are embedded as
`Except` results; the `World` is returned alongside the result even on the
error path, so that side effects that happened before an exception remain
observable (this is what the temporary-file-cleanup claims are about).
-/

/-- Embedding of the Python/JSON values handled by the PDF tool.  Python
floats are abstracted as rationals; no theorem below depends on float
arithmetic or on the textual rendering of a float. -/
inductive Value where
  | vNone : Value
  | vBool : Bool → Value
  | vInt : Int → Value
  | vFloat : Rat → Value
  | vStr : String → Value
  | vList : List Value → Value
  | vDict : List (String × Value) → Value

/-- A Python dict: an insertion-ordered association list with unique keys. -/
abbrev Obj := List (String × Value)

mutual

/-- Structural boolean equality on `Value` (used to derive decidable
equality, which Lean cannot derive automatically for this nested type). -/
def Value.beq : Value → Value → Bool
  | .vNone, .vNone => true
  | .vBool a, .vBool b => a == b
  | .vInt a, .vInt b => a == b
  | .vFloat a, .vFloat b => a == b
  | .vStr a, .vStr b => a == b
  | .vList xs, .vList ys => Value.beqList xs ys
  | .vDict xs, .vDict ys => Value.beqPairs xs ys
  | _, _ => false

def Value.beqList : List Value → List Value → Bool
  | [], [] => true
  | x :: xs, y :: ys => Value.beq x y && Value.beqList xs ys
  | _, _ => false

def Value.beqPairs : List (String × Value) → List (String × Value) → Bool
  | [], [] => true
  | x :: xs, y :: ys => x.1 == y.1 && Value.beq x.2 y.2 && Value.beqPairs xs ys
  | _, _ => false

end

instance : BEq Value := ⟨Value.beq⟩

/-- Induction principle for the nested inductive `Value`. -/
theorem Value.my_ind (P : Value → Prop)
    (h1 : P .vNone) (h2 : ∀ b, P (.vBool b)) (h3 : ∀ n, P (.vInt n))
    (h4 : ∀ q, P (.vFloat q)) (h5 : ∀ s, P (.vStr s))
    (h6 : ∀ xs, (∀ x ∈ xs, P x) → P (.vList xs))
    (h7 : ∀ kvs, (∀ kv ∈ kvs, P kv.2) → P (.vDict kvs)) :
    ∀ v, P v
  | .vNone => h1
  | .vBool b => h2 b
  | .vInt n => h3 n
  | .vFloat q => h4 q
  | .vStr s => h5 s
  | .vList xs => h6 xs (fun x hx => Value.my_ind P h1 h2 h3 h4 h5 h6 h7 x)
  | .vDict kvs => h7 kvs (fun kv hkv => Value.my_ind P h1 h2 h3 h4 h5 h6 h7 kv.2)
termination_by v => sizeOf v
decreasing_by
  all_goals simp_wf
  all_goals try
    have := List.sizeOf_lt_of_mem hx
  all_goals try
    have hm := List.sizeOf_lt_of_mem hkv
  all_goals try
    have hp : sizeOf kv.2 < sizeOf kv := by
      obtain ⟨a, b⟩ := kv
      simp
  all_goals omega

theorem Value.beqList_eq :
    ∀ xs ys, (∀ x ∈ xs, ∀ b, Value.beq x b = true → x = b) →
      Value.beqList xs ys = true → xs = ys := by
  intro xs
  induction xs with
  | nil =>
      intro ys _ h
      cases ys with
      | nil => rfl
      | cons y rys => simp [Value.beqList] at h
  | cons x rest ihr =>
      intro ys hp h
      cases ys with
      | nil => simp [Value.beqList] at h
      | cons y rys =>
          simp only [Value.beqList, Bool.and_eq_true] at h
          have hh := hp x (by simp) y h.1
          have ht := ihr rys (fun z hz => hp z (List.mem_cons_of_mem _ hz)) h.2
          rw [hh, ht]

theorem Value.beqPairs_eq :
    ∀ xs ys, (∀ kv ∈ xs, ∀ b, Value.beq (Prod.snd kv) b = true → Prod.snd kv = b) →
      Value.beqPairs xs ys = true → xs = ys := by
  intro xs
  induction xs with
  | nil =>
      intro ys _ h
      cases ys with
      | nil => rfl
      | cons y rys => simp [Value.beqPairs] at h
  | cons x rest ihr =>
      intro ys hp h
      cases ys with
      | nil => simp [Value.beqPairs] at h
      | cons y rys =>
          simp only [Value.beqPairs, Bool.and_eq_true, beq_iff_eq] at h
          obtain ⟨⟨hk, hv⟩, hrest⟩ := h
          have hh := hp x (by simp) y.2 hv
          have ht := ihr rys (fun z hz => hp z (List.mem_cons_of_mem _ hz)) hrest
          have hxy : x = y := by
            obtain ⟨a, b⟩ := x
            obtain ⟨c, d⟩ := y
            simp only at hk hh
            rw [hk, hh]
          rw [hxy, ht]

theorem Value.eq_of_beq_aux : ∀ a b : Value, Value.beq a b = true → a = b := by
  intro a
  induction a using Value.my_ind with
  | h1 => intro b h; cases b <;> simp [Value.beq] at h <;> rfl
  | h2 x => intro b h; cases b <;> simp [Value.beq] at h <;> rw [h]
  | h3 x => intro b h; cases b <;> simp [Value.beq] at h <;> rw [h]
  | h4 x => intro b h; cases b <;> simp [Value.beq] at h <;> rw [h]
  | h5 x => intro b h; cases b <;> simp [Value.beq] at h <;> rw [h]
  | h6 xs ih =>
      intro b h
      cases b <;> simp [Value.beq] at h
      rw [Value.beqList_eq xs _ ih h]
  | h7 kvs ih =>
      intro b h
      cases b <;> simp [Value.beq] at h
      rw [Value.beqPairs_eq kvs _ (fun kv hkv => ih kv hkv) h]

theorem Value.beq_refl_aux : ∀ v : Value, Value.beq v v = true := by
  intro v
  induction v using Value.my_ind with
  | h1 => rfl
  | h2 b => simp [Value.beq]
  | h3 n => simp [Value.beq]
  | h4 q => simp [Value.beq]
  | h5 s => simp [Value.beq]
  | h6 xs ih =>
      show Value.beqList xs xs = true
      induction xs with
      | nil => rfl
      | cons x rest ihr =>
          simp only [Value.beqList, Bool.and_eq_true]
          exact ⟨ih x (by simp), ihr (fun y hy => ih y (by simp [hy]))⟩
  | h7 kvs ih =>
      show Value.beqPairs kvs kvs = true
      induction kvs with
      | nil => rfl
      | cons kv rest ihr =>
          simp only [Value.beqPairs, Bool.and_eq_true]
          exact ⟨⟨by simp, ih kv (by simp)⟩, ihr (fun y hy => ih y (by simp [hy]))⟩

instance : LawfulBEq Value where
  eq_of_beq := fun h => Value.eq_of_beq_aux _ _ h
  rfl := Value.beq_refl_aux _

instance : DecidableEq Value := fun a b =>
  decidable_of_iff (Value.beq a b = true)
    ⟨Value.eq_of_beq_aux a b, fun h => h ▸ Value.beq_refl_aux a⟩

instance instDecEqExcept {ε α : Type} [DecidableEq ε] [DecidableEq α] :
    DecidableEq (Except ε α) := fun x y =>
  match x, y with
  | .ok a, .ok b =>
      if h : a = b then isTrue (by rw [h])
      else isFalse (fun hh => h (by cases hh; rfl))
  | .error a, .error b =>
      if h : a = b then isTrue (by rw [h])
      else isFalse (fun hh => h (by cases hh; rfl))
  | .ok _, .error _ => isFalse (fun hh => Except.noConfusion hh)
  | .error _, .ok _ => isFalse (fun hh => Except.noConfusion hh)

mutual

/-- Python `repr()` of a value, as used by `str()` on containers.  The
textual form of floats is abstracted (no claim depends on it). -/
def pyRepr : Value → String
  | .vNone => "None"
  | .vBool b => if b then "True" else "False"
  | .vInt n => toString n
  | .vFloat q => toString q
  | .vStr s => "\x27" ++ s ++ "\x27"
  | .vList xs => "[" ++ pyReprList xs ++ "]"
  | .vDict kvs => "\x7b" ++ pyReprPairs kvs ++ "\x7d"

def pyReprList : List Value → String
  | [] => ""
  | [x] => pyRepr x
  | x :: xs => pyRepr x ++ ", " ++ pyReprList xs

def pyReprPairs : List (String × Value) → String
  | [] => ""
  | [kv] => "\x27" ++ kv.1 ++ "\x27: " ++ pyRepr kv.2
  | kv :: kvs => "\x27" ++ kv.1 ++ "\x27: " ++ pyRepr kv.2 ++ ", " ++ pyReprPairs kvs

end

/-- Python `str()` of a value: the string itself for strings, `repr`-based
otherwise (matches CPython for the container/scalar cases used here). -/
def pyStr : Value → String
  | .vStr s => s
  | v => pyRepr v

/-- Python truthiness of a value. -/
def pyTruthy : Value → Bool
  | .vNone => false
  | .vBool b => b
  | .vInt n => n != 0
  | .vFloat q => q != 0
  | .vStr s => !s.isEmpty
  | .vList xs => !xs.isEmpty
  | .vDict kvs => !kvs.isEmpty

/-- Python `d.get(k)`: first (unique) binding of `k`, if any. -/
def dGet (d : Obj) (k : String) : Option Value :=
  (d.find? (fun kv => kv.1 == k)).map (fun kv => kv.2)

/-- Python `d.get(k, default)`. -/
def dGetD (d : Obj) (k : String) (default : Value) : Value :=
  (dGet d k).getD default

/-- Python `isinstance(v, dict)`. -/
def isDictV : Value → Bool
  | .vDict _ => true
  | _ => false

/-- Python `isinstance(v, (int, float))`.  CPython `bool` is a subclass of
`int`, so booleans count as numeric for this check. -/
def numericB : Value → Bool
  | .vBool _ => true
  | .vInt _ => true
  | .vFloat _ => true
  | _ => false

/-- One ReportLab `TableStyle` command, e.g.
`("BACKGROUND", (0, 1), (-1, 1), colors.whitesmoke)`.  Coordinates are
`(col, row)` pairs, `-1` meaning the last column/row; trailing parameters
(colors, line widths) are kept as strings. -/
structure StyleCmd where
  cmd : String
  c0 : Int
  r0 : Int
  c1 : Int
  r1 : Int
  args : List String
deriving DecidableEq

/-- The `GRID` style applied to every table (pdf_tool.py line 131). -/
def gridStyle : StyleCmd := ⟨"GRID", 0, 0, -1, -1, ["0.25", "grey"]⟩

/-- The header-row background (pdf_tool.py line 132). -/
def headerBg : StyleCmd := ⟨"BACKGROUND", 0, 0, -1, 0, ["lightgrey"]⟩

/-- A whitesmoke background on row `r` (the alternate-shading command). -/
def wsBg (r : Nat) : StyleCmd := ⟨"BACKGROUND", 0, (r : Int), -1, (r : Int), ["whitesmoke"]⟩

/-- A ReportLab `Table`: its rows (cells are the Python objects put in them)
and its style commands. -/
structure PdfTable where
  rows : List (List Value)
  styles : List StyleCmd
deriving DecidableEq

/-- Value rendering of the generic branch of `_build_table`
(pdf_tool.py lines 177-196): a non-empty list of dicts is joined into
`"k: v, ..."` lines; any other dict/list is passed through `str()`;
scalars are kept as-is. -/
def renderGeneric : Value → Value
  | .vList items =>
      if !items.isEmpty && items.all isDictV then
        .vStr (String.intercalate "\n"
          (items.map (fun it =>
            match it with
            | .vDict kvs =>
                String.intercalate ", " (kvs.map (fun kv => kv.1 ++ ": " ++ pyStr kv.2))
            | _ => "")))
      else .vStr (pyRepr (.vList items))
  | .vDict kvs => .vStr (pyRepr (.vDict kvs))
  | v => v

/-- Rows of the generic (standard-processing) branch: one `[k, v]` row per
top-level key, in insertion order. -/
def stdRows (data : Obj) : List (List Value) :=
  data.map (fun kv => [Value.vStr kv.1, renderGeneric kv.2])

/-- Alternate-shading commands of the generic branch: `enumerate(..., start=1)`
indices, a whitesmoke background at every odd index. -/
def stdShade : Nat → Nat → List StyleCmd
  | _, 0 => []
  | idx, n + 1 => (if idx % 2 == 1 then [wsBg idx] else []) ++ stdShade (idx + 1) n

/-- Shading for one record of the special-case branch: every row of the
record is shaded, at consecutive row indices starting from `rc`. -/
def shadeRun : Nat → Nat → List StyleCmd
  | _, 0 => []
  | rc, n + 1 => wsBg rc :: shadeRun (rc + 1) n

/-- Rows and styles produced from the `data` records in the special-case
branch of `_build_table` (lines 150-162): records are flattened to one row
per key/value pair, raw (no string conversion), and a whole record is shaded
iff its `enumerate(..., start=2)` index is odd.  `i` is the record index,
`rc` the index the next emitted row will occupy.  A non-dict record is
unreachable (the branch is guarded by `all(isinstance(item, dict))`). -/
def recordRows : List Value → Nat → Nat → List (List Value) × List StyleCmd
  | [], _, _ => ([], [])
  | .vDict kvs :: rest, i, rc =>
      let newRows := kvs.map (fun kv => [Value.vStr kv.1, kv.2])
      let newStyles := if i % 2 == 1 then shadeRun rc kvs.length else []
      let tailOut := recordRows rest (i + 1) (rc + kvs.length)
      (newRows ++ tailOut.1, newStyles ++ tailOut.2)
  | _ :: rest, i, rc => recordRows rest (i + 1) rc

/-- Rows and styles for the leftover top-level keys of the special-case
branch (lines 165-172): `enumerate(other_keys.items(), start=len(rows))`,
so here the enumeration index coincides with the actual row index. -/
def enumRows : Obj → Nat → List (List Value) × List StyleCmd
  | [], _ => ([], [])
  | kv :: rest, i =>
      let tailOut := enumRows rest (i + 1)
      ([Value.vStr kv.1, kv.2] :: tailOut.1,
       (if i % 2 == 1 then [wsBg i] else []) ++ tailOut.2)

/-- The guard of the special-case branch of `_build_table` (lines 137-142):
the mapping has a `title` key and a `data` key holding a non-empty list. -/
def specialTrigger (data : Obj) : Bool :=
  (dGet data "title").isSome &&
    (match dGet data "data" with
     | some (.vList l) => !l.isEmpty
     | _ => false)

/-- The list held under the `data` key (empty when absent or not a list;
under `specialTrigger` it is the actual non-empty list). -/
def dataList (data : Obj) : List Value :=
  match dGet data "data" with
  | some (.vList l) => l
  | _ => []

/-- Embedding of `_build_table` (pdf_tool.py lines 124-206).  Note two
faithfully preserved quirks: in the special-case branch, when not all items
of `data["data"]` are dicts, control falls through to the standard loop with
the title row (and its style) already appended, so the standard loop's
`enumerate(..., start=1)` indices no longer match actual row positions; and
the `grand_total` key receives no special styling anywhere.  In the generic
branch the `len(rows) == 1` test (rows then holding only the header) adds
the placeholder row. -/
def buildTable (data : Obj) : PdfTable :=
  if specialTrigger data then
    if (dataList data).all isDictV then
      ⟨[[.vStr "Field", .vStr "Value"], [.vStr "title", (dGet data "title").getD .vNone]] ++
         (recordRows (dataList data) 2 2).1 ++
         (enumRows (data.filter (fun kv => !(kv.1 == "title" || kv.1 == "data")))
            (2 + (recordRows (dataList data) 2 2).1.length)).1,
       [gridStyle, headerBg] ++ [wsBg 1] ++ (recordRows (dataList data) 2 2).2 ++
         (enumRows (data.filter (fun kv => !(kv.1 == "title" || kv.1 == "data")))
            (2 + (recordRows (dataList data) 2 2).1.length)).2⟩
    else
      ⟨[[.vStr "Field", .vStr "Value"], [.vStr "title", (dGet data "title").getD .vNone]] ++
         stdRows data,
       [gridStyle, headerBg] ++ [wsBg 1] ++ stdShade 1 data.length⟩
  else
    ⟨if ([[Value.vStr "Field", Value.vStr "Value"]] ++ stdRows data).length = 1
      then [[Value.vStr "Field", Value.vStr "Value"]] ++ stdRows data ++ [[Value.vStr "No data", Value.vStr ""]]
      else [[Value.vStr "Field", Value.vStr "Value"]] ++ stdRows data,
     [gridStyle, headerBg] ++ stdShade 1 data.length⟩

/-- Embedding of `_build_table_from_list` (pdf_tool.py lines 209-226).  An
empty list yields the unstyled single-cell `Table([["No data"]])`.  A list
of dicts gets a header of the sorted union of keys.  Otherwise the list is
used as the rows directly (a non-list element is kept as a singleton row;
ReportLab would require each row to be a sequence). -/
def buildTableFromList (data : List Value) : PdfTable :=
  if data.isEmpty then ⟨[[.vStr "No data"]], []⟩
  else if data.all isDictV then
    let headers : List String :=
      ((data.flatMap (fun v =>
        match v with
        | .vDict kvs => kvs.map (fun kv => kv.1)
        | _ => [])).dedup).mergeSort (fun a b => a ≤ b)
    let rows := (headers.map Value.vStr) ::
      data.map (fun v =>
        match v with
        | .vDict kvs => headers.map (fun h => dGetD kvs h (.vStr ""))
        | _ => [])
    ⟨rows, [gridStyle, headerBg]⟩
  else
    ⟨data.map (fun v =>
      match v with
      | .vList cells => cells
      | x => [x]), [gridStyle, headerBg]⟩

/-- Errors raised by the PDF tool, one constructor per raise site:
`emptyData` is the `ValueError("data cannot be empty.")` of `create_pdf`;
`unsupportedChart` is the `ValueError(f"Unsupported chart type: ...")` of
`create_chart` (carrying the offending `chart_type` value); `pyError` covers
runtime errors (TypeError/AttributeError) on ill-typed payload shapes. -/
inductive PdfError where
  | emptyData : PdfError
  | unsupportedChart : Value → PdfError
  | pyError : String → PdfError
deriving DecidableEq

/-- The message of each error, as Python formats it. -/
def pdfErrorMsg : PdfError → String
  | .emptyData => "data cannot be empty."
  | .unsupportedChart ct => "Unsupported chart type: " ++ pyStr ct
  | .pyError m => m

/-- One flowable of the ReportLab story.  `summaryBox` models the boxed
one-cell table holding the cover summary paragraph. -/
inductive Flowable where
  | para : String → String → Flowable
  | image : String → Value → Value → Flowable
  | spacer : Nat → Nat → Flowable
  | tbl : PdfTable → Flowable
  | summaryBox : String → Flowable
  | pageBreak : Flowable
deriving DecidableEq

/-- Embedding of `PdfReportBuilder` state: output path, accumulated story,
and the registry of temporary chart images.  The Python class has no
finalized/saved flag, which this structure reflects. -/
structure Builder where
  outPath : String
  story : List Flowable
  tmpPngs : List String
deriving DecidableEq

def initBuilder (p : String) : Builder := ⟨p, [], []⟩

/-- The world the tool acts on: the temporary-file allocator counter, the
set of files currently existing, the history of chart renders (tmp path and
the chart spec drawn into that file), and the current timestamp string. -/
structure World where
  nextTmp : Nat
  files : List String
  renders : List (String × Obj)
  time : String
deriving DecidableEq

/-- Name of the `n`-th temporary PNG allocated by
`tempfile.NamedTemporaryFile(delete=False, suffix=".png")`. -/
def tmpName (n : Nat) : String := "/tmp/chart-" ++ toString n ++ ".png"

/-- Path resolution, `Path(p).resolve()`. -/
def resolvePath (p : String) : String := "/abs/" ++ p

/-- Embedding of `create_chart` (pdf_tool.py lines 229-252).  The
`chart_type` defaults to `"bar"`; for bar/pie/line a fresh temporary PNG is
created (file added to the world, render recorded) and its path returned;
any other value raises before any file is created, so the world is returned
unchanged. -/
def createChartW (cs : Obj) (w : World) : Except PdfError String × World :=
  if dGetD cs "chart_type" (.vStr "bar") == .vStr "bar"
      || dGetD cs "chart_type" (.vStr "bar") == .vStr "pie"
      || dGetD cs "chart_type" (.vStr "bar") == .vStr "line" then
    (.ok (tmpName w.nextTmp),
     { w with nextTmp := w.nextTmp + 1,
              files := tmpName w.nextTmp :: w.files,
              renders := (tmpName w.nextTmp, cs) :: w.renders })
  else
    (.error (.unsupportedChart (dGetD cs "chart_type" (.vStr "bar"))), w)

/-- Embedding of `PdfReportBuilder.add_cover` (lines 42-77): optional logo
image (only when the path names an existing file), title, timestamp
paragraph, optional boxed summary (skipped when falsy), then a page break.
A non-string logo value is skipped (claims do not exercise that shape). -/
def addCover (b : Builder) (title : String) (logoPath : Option Value)
    (summary : Option String) (w : World) : Builder :=
  let s0 := match logoPath with
    | some (.vStr s) =>
        if s ∈ w.files then b.story ++ [.image s (.vInt 80) (.vInt 80), .spacer 1 12]
        else b.story
    | _ => b.story
  let s1 := s0 ++ [.para title "Title", .para ("Generated: " ++ w.time) "Normal"]
  let s2 := match summary with
    | some sm => if sm.isEmpty then s1 else s1 ++ [.spacer 1 12, .summaryBox sm]
    | none => s1
  { b with story := s2 ++ [.pageBreak] }

/-- The chart loop of `add_section` (lines 95-100): for each spec, render
the chart, append the image flowable, and register the temporary PNG.  An
exception from `create_chart` propagates, abandoning the images already
registered (the world keeps the files already created). -/
def addChartImages : List Value → Builder → World → Except PdfError Builder × World
  | [], b, w => (.ok b, w)
  | cs :: rest, b, w =>
      match cs with
      | .vDict d =>
          match createChartW d w with
          | (.ok png, w1) =>
              let wV := dGetD d "width" (.vInt 400)
              let hV := dGetD d "height" (.vInt 250)
              addChartImages rest
                { b with story := b.story ++ [.image png wV hV],
                         tmpPngs := b.tmpPngs ++ [png] } w1
          | (.error e, w1) => (.error e, w1)
      | _ => (.error (.pyError "AttributeError: get"), w)

/-- The Heading2 title paragraph every section starts with
(`Paragraph(section.get("title", ""), Heading2)`). -/
def secTitlePara (sec : Obj) : Flowable :=
  .para (pyStr (dGetD sec "title" (.vStr ""))) "Heading2"

/-- Embedding of `PdfReportBuilder.add_section` (lines 79-105): a Heading2
title paragraph, then an if/elif dispatch on `section.get("type")`; an
unrecognized type degrades to a visible placeholder paragraph; every branch
ends with a spacer.  The table branch dispatches on `isinstance(dict)`:
a dict goes to `_build_table`, a list to `_build_table_from_list`, any other
falsy value yields the `No data` single-cell table and a truthy non-iterable
raises TypeError (inside `_build_table_from_list`). -/
def addSectionD (sec : Obj) (b : Builder) (w : World) : Except PdfError Builder × World :=
  if dGet sec "type" == some (.vStr "paragraph") then
    (.ok { b with story := b.story ++ [secTitlePara sec,
        .para (pyStr (dGetD sec "text" (.vStr ""))) "Normal", .spacer 1 12] }, w)
  else if dGet sec "type" == some (.vStr "table") then
    match dGetD sec "data" (.vDict []) with
    | .vDict kvs =>
        (.ok { b with story := b.story ++ [secTitlePara sec, .tbl (buildTable kvs), .spacer 1 12] }, w)
    | .vList l =>
        (.ok { b with story := b.story ++ [secTitlePara sec, .tbl (buildTableFromList l), .spacer 1 12] }, w)
    | v =>
        if pyTruthy v then (.error (.pyError "TypeError: object is not iterable"), w)
        else (.ok { b with story := b.story ++ [secTitlePara sec, .tbl ⟨[[.vStr "No data"]], []⟩, .spacer 1 12] }, w)
  else if dGet sec "type" == some (.vStr "chart") then
    match addChartImages (match dGetD sec "chart_spec" (.vDict []) with
                          | .vList l => l
                          | v => [v])
            { b with story := b.story ++ [secTitlePara sec] } w with
    | (.ok b1, w1) => (.ok { b1 with story := b1.story ++ [.spacer 1 12] }, w1)
    | (.error e, w1) => (.error e, w1)
  else
    (.ok { b with story := b.story ++ [secTitlePara sec,
        .para "Unsupported section type" "Italic", .spacer 1 12] }, w)

/-- Embedding of `PdfReportBuilder.save` (lines 107-113): `doc.build` writes
the output file, then every registered temporary PNG is unlinked, and the
resolved absolute output path is returned.  There is no try/finally and no
state flag: the builder itself is left untouched. -/
def saveB (b : Builder) (w : World) : String × World :=
  (resolvePath b.outPath,
   { w with files := (b.outPath :: w.files).filter (fun f => !(b.tmpPngs.contains f)) })

/-- Iteration of a Python value (`for x in v`): lists yield elements,
strings yield characters, dicts yield keys, the rest raises TypeError. -/
def pyIter : Value → Except PdfError (List Value)
  | .vList l => .ok l
  | .vStr s => .ok (s.toList.map (fun c => .vStr (String.singleton c)))
  | .vDict kvs => .ok (kvs.map (fun kv => .vStr kv.1))
  | _ => .error (.pyError "TypeError: object is not iterable")

/-- The `for ins in data.get("insights", [])` loop of `create_pdf`:
one titleless paragraph section per insight. -/
def addInsights : List Value → Builder → World → Except PdfError Builder × World
  | [], b, w => (.ok b, w)
  | ins :: rest, b, w =>
      match addSectionD [("title", .vStr ""), ("type", .vStr "paragraph"), ("text", ins)] b w with
      | (.ok b1, w1) => addInsights rest b1 w1
      | (.error e, w1) => (.error e, w1)

/-- The `for section in data.get("sections", [])` loop of `create_pdf`.
A non-dict section raises (attribute access on `.get`). -/
def addSections : List Value → Builder → World → Except PdfError Builder × World
  | [], b, w => (.ok b, w)
  | s :: rest, b, w =>
      match s with
      | .vDict d =>
          match addSectionD d b w with
          | (.ok b1, w1) => addSections rest b1 w1
          | (.error e, w1) => (.error e, w1)
      | _ => (.error (.pyError "AttributeError: get"), w)

/-- Shape classification of `create_pdf`: a payload is structured iff it is
a mapping containing a `sections` key. -/
def hasSections (data : Obj) : Bool := (dGet data "sections").isSome

/-- The default timestamped output path `reports/report-{timestamp}.pdf`. -/
def defaultOut (w : World) : String := "reports/report-" ++ w.time ++ ".pdf"

/-- The bundled logo asset location. -/
def assetsLogo : String := "assets/logo.png"

/-- The auto-generated chart specification of the flat path of `create_pdf`
(lines 317-322): a bar chart whose labels are the names and whose values
are the values of all numeric top-level fields, in insertion order.  No
zero-valued field is excluded. -/
def autoChartSpec (data : Obj) : Obj :=
  let numeric := data.filter (fun kv => numericB kv.2)
  [("chart_type", .vStr "bar"),
   ("labels", .vList (numeric.map (fun kv => .vStr kv.1))),
   ("values", .vList (numeric.map (fun kv => kv.2)))]

/-- Embedding of `create_pdf` (pdf_tool.py lines 255-327).  The world is
returned also on the error path, keeping created-but-not-deleted temporary
files observable.  Note that `create_pdf` does not use the builder as a
context manager and `save` has no try/finally, so no temporary-file cleanup
happens on the exception path. -/
def createPdf (data : Obj) (outPath : Option String) (includeChart : Bool)
    (w : World) : Except PdfError String × World :=
  if data.isEmpty then (.error .emptyData, w)
  else if hasSections data then
    match dGetD data "cover" (.vDict []) with
    | .vDict cover =>
        match pyIter (dGetD data "insights" (.vList [])) with
        | .error e => (.error e, w)
        | .ok insights =>
            match addInsights insights
                (addCover (initBuilder (outPath.getD (defaultOut w)))
                  (pyStr (dGetD data "title" (.vStr "Data Assistant Report")))
                  (match dGet cover "logo_path" with
                   | some lv => some lv
                   | none => if assetsLogo ∈ w.files then some (.vStr assetsLogo) else none)
                  (match dGet data "summary" with
                   | some sv => some (pyStr sv)
                   | none => none)
                  w) w with
            | (.error e, w1) => (.error e, w1)
            | (.ok b2, w1) =>
                match pyIter (dGetD data "sections" (.vList [])) with
                | .error e => (.error e, w1)
                | .ok sections =>
                    match addSections sections b2 w1 with
                    | (.error e, w2) => (.error e, w2)
                    | (.ok b3, w2) => (.ok (saveB b3 w2).1, (saveB b3 w2).2)
    | _ => (.error (.pyError "AttributeError: get"), w)
  else
    match addSectionD [("title", .vStr "Data"), ("type", .vStr "table"), ("data", .vDict data)]
        (addCover (initBuilder (outPath.getD (defaultOut w))) "Data Assistant Report"
          (if assetsLogo ∈ w.files then some (.vStr assetsLogo) else none) none w) w with
    | (.error e, w1) => (.error e, w1)
    | (.ok b2, w1) =>
        if includeChart && decide (3 ≤ (data.filter (fun kv => numericB kv.2)).length) then
          match addSectionD [("title", .vStr "Chart"), ("type", .vStr "chart"),
                             ("chart_spec", .vDict (autoChartSpec data))] b2 w1 with
          | (.error e, w2) => (.error e, w2)
          | (.ok b3, w2) => (.ok (saveB b3 w2).1, (saveB b3 w2).2)
        else (.ok (saveB b2 w1).1, (saveB b2 w1).2)

/-- The payload normalization of `create_pdf_wrapper` (app.py lines 170-183):
a dict is used as-is, a list becomes `item_i`-keyed fields, anything else an
error dict.  JSON-string parsing happens before this and never raises
(malformed JSON is converted to an error dict by the wrapper itself). -/
def wrapperData : Value → Obj
  | .vDict d => d
  | .vList l => (List.range l.length).zip l |>.map
      (fun p => ("item_" ++ toString (p.1 + 1), p.2))
  | v => [("error", .vStr "Unsupported data type"),
          ("received_type", .vStr (pyRepr v))]

/-- Embedding of `create_pdf_wrapper` (app.py lines 132-195): call
`create_pdf`; on any exception retry exactly once with a one-field error
payload stating the failure message and charts disabled; if that also
raises, return the hard failure indicator string. -/
def createPdfWrapper (v : Value) (outPath : Option String) (includeChart : Bool)
    (w : World) : String × World :=
  match createPdf (wrapperData v) outPath includeChart w with
  | (.ok p, w1) => (p, w1)
  | (.error e, w1) =>
      match createPdf [("error", .vStr ("Failed to create PDF: " ++ pdfErrorMsg e))]
              outPath false w1 with
      | (.ok p, w2) => (p, w2)
      | (.error _, w2) => ("Critical error creating PDF", w2)

/-- An initial world used by concrete witnesses: empty filesystem,
timestamp "t0". -/
def w0 : World := ⟨0, [], [], "t0"⟩

theorem vStr_beq (a b : String) : ((Value.vStr a) == (Value.vStr b)) = (a == b) := rfl

/-- Modelled from the spec (section 4.2 styling rule): the claimed styling
predicate — header row visually distinct, data rows alternately shaded by
row parity, and every `grand_total` row emphasized in bold.  Compared
against the styles the code actually emits. -/
def specStylingOK (t : PdfTable) : Bool :=
  t.styles.contains headerBg &&
  (t.rows.enum.all (fun p =>
    p.1 == 0 || (t.styles.contains (wsBg p.1) == (p.1 % 2 == 1)))) &&
  (t.rows.enum.all (fun p =>
    !(p.2.head? == some (.vStr "grand_total")) ||
      t.styles.any (fun s => s.cmd == "FONTNAME" || s.cmd == "FONT" || s.args.contains "bold")))

/-- Modelled from the spec (section 4.2 empty-table rule): a single
placeholder row `("No data", "")` after the header. -/
def specEmptyPlaceholder (t : PdfTable) : Bool :=
  t.rows.length == 2 && t.rows.getLast? == some [.vStr "No data", .vStr ""]

/-- C5 counterexample: on a builder on which `save()` has been called, a
subsequent `add_section` does not fail with an AlreadyFinalized error — it
succeeds and extends the story (the code has no finalization guard). -/
theorem c5_counterexample :
    (addSectionD [("title", .vStr "P"), ("type", .vStr "paragraph"), ("text", .vStr "hello")]
      (initBuilder "r.pdf") ((saveB (initBuilder "r.pdf") w0).2)).1
    = .ok ⟨"r.pdf", [.para "P" "Heading2", .para "hello" "Normal", .spacer 1 12], []⟩ := by
  decide

/-- C5 (amended): `save()` returns the resolved absolute output path, but
the builder has no finalized state: a paragraph `add_section` called at any
point — in particular after `save()` — succeeds and appends to the story
instead of failing with AlreadyFinalized. -/
theorem c5_amended : ∀ (b : Builder) (w : World) (title text : String),
    (saveB b w).1 = resolvePath b.outPath ∧
    (addSectionD [("title", .vStr title), ("type", .vStr "paragraph"), ("text", .vStr text)] b w).1
      = .ok { b with story := b.story ++ [.para title "Heading2", .para text "Normal", .spacer 1 12] } := by
  intro b w title text
  constructor
  · rfl
  · simp [addSectionD, dGet, dGetD, pyStr, secTitlePara]

/-- Chart types accepted by `create_chart`. -/
def allowedChartTypes : List Value := [.vStr "bar", .vStr "pie", .vStr "line"]

/-- C7: for a chart spec whose (defaulted) `chart_type` is bar, pie or line,
`create_chart` returns the path of a fresh temporary PNG, newly added to the
filesystem with the spec rendered into it; for any other value it raises
`UnsupportedChartType` naming the offending value, and the world is
unchanged — no temporary file is created. -/
theorem c7_chart_dispatch : ∀ (cs : Obj) (w : World),
    (dGetD cs "chart_type" (.vStr "bar") ∈ allowedChartTypes →
      createChartW cs w = (.ok (tmpName w.nextTmp),
        { w with nextTmp := w.nextTmp + 1,
                 files := tmpName w.nextTmp :: w.files,
                 renders := (tmpName w.nextTmp, cs) :: w.renders })) ∧
    (dGetD cs "chart_type" (.vStr "bar") ∉ allowedChartTypes →
      createChartW cs w = (.error (.unsupportedChart (dGetD cs "chart_type" (.vStr "bar"))), w) ∧
      pdfErrorMsg (.unsupportedChart (dGetD cs "chart_type" (.vStr "bar")))
        = "Unsupported chart type: " ++ pyStr (dGetD cs "chart_type" (.vStr "bar"))) := by
  intro cs w
  constructor
  · intro hmem
    have hcond : (dGetD cs "chart_type" (.vStr "bar") == .vStr "bar"
        || dGetD cs "chart_type" (.vStr "bar") == .vStr "pie"
        || dGetD cs "chart_type" (.vStr "bar") == .vStr "line") = true := by
      simp only [allowedChartTypes, List.mem_cons, List.not_mem_nil, or_false] at hmem
      rcases hmem with h | h | h <;> simp [h]
    simp only [createChartW, hcond, if_true]
  · intro hmem
    have hcond : (dGetD cs "chart_type" (.vStr "bar") == .vStr "bar"
        || dGetD cs "chart_type" (.vStr "bar") == .vStr "pie"
        || dGetD cs "chart_type" (.vStr "bar") == .vStr "line") = false := by
      simp only [allowedChartTypes, List.mem_cons, List.not_mem_nil, or_false] at hmem
      push_neg at hmem
      simp only [Bool.or_eq_false_iff]
      exact ⟨⟨by simp [hmem.1], by simp [hmem.2.1]⟩, by simp [hmem.2.2]⟩
    constructor
    · simp only [createChartW, hcond, Bool.false_eq_true, if_false]
    · rfl

/-- C7 witness: a bar spec produces the fresh file; a triangle spec fails
with the value named in the error and leaves the world untouched. -/
theorem c7_witness :
    createChartW [("chart_type", .vStr "bar")] w0
      = (.ok (tmpName w0.nextTmp),
         { w0 with nextTmp := w0.nextTmp + 1,
                   files := tmpName w0.nextTmp :: w0.files,
                   renders := (tmpName w0.nextTmp, [("chart_type", .vStr "bar")]) :: w0.renders }) ∧
    createChartW [("chart_type", .vStr "triangle")] w0
      = (.error (.unsupportedChart (.vStr "triangle")), w0) := by
  constructor
  · exact (c7_chart_dispatch [("chart_type", .vStr "bar")] w0).1 (by decide)
  · have h := ((c7_chart_dispatch [("chart_type", .vStr "triangle")] w0).2 (by decide)).1
    simpa using h

/-- C8 counterexample: the empty list-of-records input does not produce the
claimed header-plus-placeholder shape — `_build_table_from_list([])` returns
the single-cell unstyled `Table([["No data"]])`, with no header row and a
one-cell placeholder. -/
theorem c8_counterexample : specEmptyPlaceholder (buildTableFromList []) = false := by
  decide

/-- C8 (amended): an empty mapping yields the header row followed by the
placeholder row `("No data", "")`; an empty list of records instead yields a
single one-cell `["No data"]` row with no header and no styling.  In both
cases the produced table is structurally non-empty. -/
theorem c8_amended :
    buildTable [] = ⟨[[.vStr "Field", .vStr "Value"], [.vStr "No data", .vStr ""]],
                     [gridStyle, headerBg]⟩ ∧
    buildTableFromList [] = ⟨[[.vStr "No data"]], []⟩ := by
  constructor
  · decide
  · decide

theorem wsBg_eq_iff (a b : Nat) : wsBg a = wsBg b ↔ a = b := by
  constructor
  · intro h
    simpa [wsBg, StyleCmd.mk.injEq] using h
  · intro h
    rw [h]

theorem wsBg_ne_grid (r : Nat) : wsBg r ≠ gridStyle := by
  intro h
  simp [wsBg, gridStyle, StyleCmd.mk.injEq] at h

theorem wsBg_ne_headerBg (r : Nat) : wsBg r ≠ headerBg := by
  intro h
  simp [wsBg, headerBg, StyleCmd.mk.injEq] at h

theorem mem_stdShade (r : Nat) : ∀ (n k : Nat),
    (wsBg r ∈ stdShade k n ↔ (r % 2 = 1 ∧ k ≤ r ∧ r < k + n)) := by
  intro n
  induction n with
  | zero =>
      intro k
      simp only [stdShade, List.not_mem_nil, false_iff, Nat.add_zero]
      omega
  | succ m ih =>
      intro k
      by_cases hk : k % 2 = 1
      · rw [stdShade, List.mem_append]
        rw [if_pos (by simp [hk])]
        simp only [List.mem_singleton, wsBg_eq_iff, ih (k + 1)]
        omega
      · rw [stdShade, List.mem_append]
        rw [if_neg (by simp [hk])]
        simp only [List.not_mem_nil, false_or, ih (k + 1)]
        omega

theorem stdShade_shape : ∀ (n k : Nat) (s : StyleCmd),
    s ∈ stdShade k n → ∃ r, s = wsBg r := by
  intro n
  induction n with
  | zero => intro k s h; simp [stdShade] at h
  | succ m ih =>
      intro k s h
      simp only [stdShade] at h
      rcases List.mem_append.mp h with h1 | h2
      · by_cases hk : (k % 2 == 1) = true
        · rw [if_pos hk] at h1
          simp at h1
          exact ⟨k, h1⟩
        · rw [if_neg hk] at h1
          simp at h1
      · exact ih (k + 1) s h2

theorem shadeRun_shape : ∀ (n k : Nat) (s : StyleCmd),
    s ∈ shadeRun k n → ∃ r, s = wsBg r := by
  intro n
  induction n with
  | zero => intro k s h; simp [shadeRun] at h
  | succ m ih =>
      intro k s h
      simp only [shadeRun, List.mem_cons] at h
      rcases h with h | h
      · exact ⟨k, h⟩
      · exact ih (k + 1) s h

theorem recordRows_styles_shape : ∀ (l : List Value) (i rc : Nat) (s : StyleCmd),
    s ∈ (recordRows l i rc).2 → ∃ r, s = wsBg r := by
  intro l
  induction l with
  | nil => intro i rc s h; simp [recordRows] at h
  | cons x rest ih =>
      intro i rc s h
      cases x with
      | vDict kvs =>
          simp only [recordRows] at h
          rcases List.mem_append.mp h with h1 | h2
          · by_cases hi : (i % 2 == 1) = true
            · rw [if_pos hi] at h1
              exact shadeRun_shape _ _ _ h1
            · rw [if_neg hi] at h1
              simp at h1
          · exact ih _ _ _ h2
      | vNone => exact ih _ _ _ h
      | vBool b => exact ih _ _ _ h
      | vInt n => exact ih _ _ _ h
      | vFloat q => exact ih _ _ _ h
      | vStr str => exact ih _ _ _ h
      | vList xs => exact ih _ _ _ h

theorem enumRows_styles_shape : ∀ (l : Obj) (i : Nat) (s : StyleCmd),
    s ∈ (enumRows l i).2 → ∃ r, s = wsBg r := by
  intro l
  induction l with
  | nil => intro i s h; simp [enumRows] at h
  | cons kv rest ih =>
      intro i s h
      simp only [enumRows] at h
      rcases List.mem_append.mp h with h1 | h2
      · by_cases hi : (i % 2 == 1) = true
        · rw [if_pos hi] at h1
          simp at h1
          exact ⟨i, h1⟩
        · rw [if_neg hi] at h1
          simp at h1
      · exact ih _ s h2

/-- Every style command `_build_table` ever emits is the grid, the header
background, or a whitesmoke row background. -/
theorem buildTable_styles_shape (m : Obj) (s : StyleCmd) :
    s ∈ (buildTable m).styles → s = gridStyle ∨ s = headerBg ∨ ∃ r, s = wsBg r := by
  intro h
  unfold buildTable at h
  split at h
  · split at h
    · simp only [List.mem_append] at h
      rcases h with ((h | h) | h) | h
      · simp only [List.mem_cons, List.not_mem_nil, or_false] at h
        rcases h with h | h
        · exact Or.inl h
        · exact Or.inr (Or.inl h)
      · simp only [List.mem_singleton] at h
        exact Or.inr (Or.inr ⟨1, h⟩)
      · exact Or.inr (Or.inr (recordRows_styles_shape _ _ _ _ h))
      · exact Or.inr (Or.inr (enumRows_styles_shape _ _ _ h))
    · simp only [List.mem_append] at h
      rcases h with (h | h) | h
      · simp only [List.mem_cons, List.not_mem_nil, or_false] at h
        rcases h with h | h
        · exact Or.inl h
        · exact Or.inr (Or.inl h)
      · simp only [List.mem_singleton] at h
        exact Or.inr (Or.inr ⟨1, h⟩)
      · exact Or.inr (Or.inr (stdShade_shape _ _ _ h))
  · simp only [List.mem_append] at h
    rcases h with h | h
    · simp only [List.mem_cons, List.not_mem_nil, or_false] at h
      rcases h with h | h
      · exact Or.inl h
      · exact Or.inr (Or.inl h)
    · exact Or.inr (Or.inr (stdShade_shape _ _ _ h))

/-- C4 counterexample: at the mapping
`{"title": "T", "data": [{"a": 1, "b": 2}], "grand_total": 5}` the claimed
styling predicate fails on the code's output — the `grand_total` row gets no
bold emphasis (no font/bold command is ever emitted) and, in this
special-case branch, the shading does not follow row parity (row 3 is
unshaded). -/
theorem c4_counterexample :
    specStylingOK (buildTable
      [("title", .vStr "T"),
       ("data", .vList [.vDict [("a", .vInt 1), ("b", .vInt 2)]]),
       ("grand_total", .vInt 5)]) = false := by
  decide

/-- C4 (amended): the header row is visually distinct (its background
command is always present) and every style the formatter emits is a GRID or
BACKGROUND command — in particular no bold emphasis exists, so rows keyed
`grand_total` get no special treatment; alternate shading follows row parity
exactly in the generic branch (a whitesmoke background sits on row `r` iff
`r` is odd and `r` indexes one of the data rows), while the `title`/`data`
special-case branch shades by record parity instead. -/
theorem c4_amended : ∀ (m : Obj),
    (∀ s ∈ (buildTable m).styles, s.cmd = "GRID" ∨ s.cmd = "BACKGROUND") ∧
    headerBg ∈ (buildTable m).styles ∧
    (specialTrigger m = false →
      ∀ r : Nat, (wsBg r ∈ (buildTable m).styles ↔ (r % 2 = 1 ∧ 1 ≤ r ∧ r ≤ m.length))) := by
  intro m
  refine ⟨?_, ?_, ?_⟩
  · intro s hs
    rcases buildTable_styles_shape m s hs with h | h | ⟨r, h⟩
    · exact Or.inl (by rw [h]; rfl)
    · exact Or.inr (by rw [h]; rfl)
    · exact Or.inr (by rw [h]; rfl)
  · unfold buildTable
    split
    · split
      all_goals simp
    · simp
  · intro hsp r
    unfold buildTable
    rw [if_neg (by rw [hsp]; simp)]
    simp only [List.mem_append, List.mem_cons, List.not_mem_nil, or_false]
    constructor
    · rintro ((h | h) | h)
      · exact absurd h (wsBg_ne_grid r)
      · exact absurd h (wsBg_ne_headerBg r)
      · have := (mem_stdShade r (List.length m) 1).mp h
        omega
    · intro h
      exact Or.inr ((mem_stdShade r (List.length m) 1).mpr (by omega))

/-- C4 witness: at the flat mapping `{"grand_total": 5}` the header
background is present, and row 1 (odd) carries the whitesmoke shading. -/
theorem c4_witness :
    headerBg ∈ (buildTable [("grand_total", .vInt 5)]).styles ∧
    wsBg 1 ∈ (buildTable [("grand_total", .vInt 5)]).styles := by
  constructor
  · exact (c4_amended [("grand_total", .vInt 5)]).2.1
  · exact ((c4_amended [("grand_total", .vInt 5)]).2.2 (by decide) 1).mpr (by decide)

/-- C9: the Table Formatter is a pure function — formatting the same
mapping twice yields identical row/style output — and, outside the
`title`/`data` special case, the data rows list exactly the mapping's keys
in insertion order (one row per key, after the header row). -/
theorem c9_deterministic_ordered : ∀ (m : Obj),
    buildTable m = buildTable m ∧
    ((specialTrigger m = false ∧ m ≠ []) →
      (buildTable m).rows.map (fun r => r.head?)
        = some (.vStr "Field") :: m.map (fun kv => some (.vStr kv.1))) := by
  intro m
  refine ⟨rfl, ?_⟩
  rintro ⟨hs, hne⟩
  unfold buildTable
  rw [if_neg (by rw [hs]; simp)]
  have hlen : ¬(([[Value.vStr "Field", Value.vStr "Value"]] ++ stdRows m).length = 1) := by
    simp only [List.length_append, List.length_cons, List.length_nil, stdRows, List.length_map]
    have := List.length_pos.mpr hne
    omega
  rw [if_neg hlen]
  simp [stdRows, Function.comp]

/-- C9 witness: the concrete mapping `{"x": 1, "y": "s"}` is formatted with
its keys in insertion order after the header. -/
theorem c9_witness :
    (buildTable [("x", .vInt 1), ("y", .vStr "s")]).rows.map (fun r => r.head?)
      = some (.vStr "Field")
        :: [(("x" : String), Value.vInt 1), (("y" : String), Value.vStr "s")].map
             (fun kv => some (.vStr kv.1)) :=
  (c9_deterministic_ordered [("x", .vInt 1), ("y", .vStr "s")]).2 ⟨by decide, by decide⟩

theorem stdRows_title_count (k : String) : ∀ (m : Obj),
    ((stdRows m).filter (fun r => r.head? == some (.vStr k))).length
      = (m.filter (fun kv => kv.1 == k)).length := by
  intro m
  induction m with
  | nil => rfl
  | cons kv rest ih =>
      show (List.filter _ ([Value.vStr kv.1, renderGeneric kv.2] :: stdRows rest)).length = _
      rw [List.filter_cons, List.filter_cons]
      have hped : ([Value.vStr kv.1, renderGeneric kv.2].head? == some (Value.vStr k))
          = (kv.1 == k) := rfl
      rw [hped]
      by_cases hk : (kv.1 == k) = true
      · rw [if_pos hk, if_pos hk]
        simpa using ih
      · rw [if_neg hk, if_neg hk]
        exact ih

/-- C10: a mapping with a `title` key and a `data` key holding a non-empty
list with at least one non-dict element makes `_build_table` emit the title
row twice — once from the special-case branch (appended before the all-dicts
check) and once from the generic per-key loop it falls through to, which
re-processes every top-level key including `title`. -/
theorem c10_double_title : ∀ (m : Obj) (t : Value) (l : List Value),
    dGet m "title" = some t → dGet m "data" = some (.vList l) → l ≠ [] →
    l.all isDictV = false →
    (m.filter (fun kv => kv.1 == "title")).length = 1 →
    ((buildTable m).rows.filter (fun r => r.head? == some (.vStr "title"))).length = 2 := by
  intro m t l ht hd hne hall hcount
  have hsp : specialTrigger m = true := by
    simp only [specialTrigger, ht, hd, Option.isSome_some, Bool.true_and]
    simpa using hne
  have hdl : dataList m = l := by simp [dataList, hd]
  unfold buildTable
  rw [if_pos hsp]
  rw [if_neg (by rw [hdl, hall]; simp)]
  rw [ht]
  simp only [Option.getD_some]
  rw [List.filter_append, List.length_append, stdRows_title_count, hcount]
  rfl

/-- C10 witness: the mapping `{"title": "T", "data": [1]}` yields exactly
two rows labeled `title`. -/
theorem c10_witness :
    ((buildTable [("title", .vStr "T"), ("data", .vList [.vInt 1])]).rows.filter
      (fun r => r.head? == some (.vStr "title"))).length = 2 :=
  c10_double_title [("title", .vStr "T"), ("data", .vList [.vInt 1])]
    (.vStr "T") [.vInt 1] (by decide) (by decide) (by decide) (by decide) (by decide)

theorem createChartW_ne_empty (cs : Obj) (w : World) :
    (createChartW cs w).1 ≠ .error .emptyData := by
  unfold createChartW
  split <;> simp

theorem addChartImages_ne_empty : ∀ (l : List Value) (b : Builder) (w : World),
    (addChartImages l b w).1 ≠ .error .emptyData := by
  intro l
  induction l with
  | nil => intro b w; simp [addChartImages]
  | cons cs rest ih =>
      intro b w
      cases cs with
      | vDict d =>
          simp only [addChartImages]
          rcases hc : createChartW d w with ⟨r, w1⟩
          cases r with
          | ok png => simp only [hc]; exact ih _ _
          | error e =>
              have hne := createChartW_ne_empty d w
              rw [hc] at hne
              simp only [hc]
              simpa using hne
      | vNone => simp [addChartImages]
      | vBool x => simp [addChartImages]
      | vInt x => simp [addChartImages]
      | vFloat x => simp [addChartImages]
      | vStr x => simp [addChartImages]
      | vList x => simp [addChartImages]

theorem addSectionD_ne_empty (sec : Obj) (b : Builder) (w : World) :
    (addSectionD sec b w).1 ≠ .error .emptyData := by
  unfold addSectionD
  split
  · simp
  · split
    · split
      · simp
      · simp
      · split <;> simp
    · split
      · split
        · simp
        · rename_i e w1 heq
          have hne := addChartImages_ne_empty
            (match dGetD sec "chart_spec" (.vDict []) with
             | .vList l => l
             | v => [v])
            { b with story := b.story ++ [secTitlePara sec] } w
          rw [heq] at hne
          simpa using hne
      · simp

theorem addInsights_ne_empty : ∀ (l : List Value) (b : Builder) (w : World),
    (addInsights l b w).1 ≠ .error .emptyData := by
  intro l
  induction l with
  | nil => intro b w; simp [addInsights]
  | cons ins rest ih =>
      intro b w
      simp only [addInsights]
      rcases hs : addSectionD [("title", .vStr ""), ("type", .vStr "paragraph"), ("text", ins)] b w
        with ⟨r, w1⟩
      cases r with
      | ok b1 => simp only [hs]; exact ih _ _
      | error e =>
          have hne := addSectionD_ne_empty
            [("title", .vStr ""), ("type", .vStr "paragraph"), ("text", ins)] b w
          rw [hs] at hne
          simp only [hs]
          simpa using hne

theorem addSections_ne_empty : ∀ (l : List Value) (b : Builder) (w : World),
    (addSections l b w).1 ≠ .error .emptyData := by
  intro l
  induction l with
  | nil => intro b w; simp [addSections]
  | cons s rest ih =>
      intro b w
      cases s with
      | vDict d =>
          simp only [addSections]
          rcases hs : addSectionD d b w with ⟨r, w1⟩
          cases r with
          | ok b1 => simp only [hs]; exact ih _ _
          | error e =>
              have hne := addSectionD_ne_empty d b w
              rw [hs] at hne
              simp only [hs]
              simpa using hne
      | vNone => simp [addSections]
      | vBool x => simp [addSections]
      | vInt x => simp [addSections]
      | vFloat x => simp [addSections]
      | vStr x => simp [addSections]
      | vList x => simp [addSections]

theorem pyIter_ne_empty (v : Value) (e : PdfError) :
    pyIter v = .error e → e ≠ .emptyData := by
  cases v <;> simp [pyIter] <;> intro h <;> simp [← h]

/-- C1 (amended): `create_pdf` raises the EmptyPayload error (the
`ValueError("data cannot be empty.")`) exactly when the payload mapping is
empty — and then touches nothing (the world is unchanged, no output file).
A structured payload with an empty `sections` list and empty or absent
`insights` is NOT rejected; no payload with content can produce this error. -/
theorem c1_empty_exact : ∀ (data : Obj) (op : Option String) (ic : Bool) (w : World),
    ((createPdf data op ic w).1 = .error .emptyData ↔ data = []) ∧
    (createPdf ([] : Obj) op ic w).2 = w := by
  intro data op ic w
  refine ⟨⟨?_, ?_⟩, rfl⟩
  · intro h
    by_contra hne
    have hie : data.isEmpty = false := by simpa using hne
    unfold createPdf at h
    rw [hie] at h
    simp only [Bool.false_eq_true, if_false] at h
    by_cases hs : hasSections data = true
    · rw [hs] at h
      simp only [if_true] at h
      repeat' split at h
      all_goals simp at h
      all_goals subst h
      all_goals rename_i heq
      all_goals
        first
        | exact pyIter_ne_empty _ _ heq rfl
        | exact addInsights_ne_empty _ _ _ (by rw [heq])
        | exact addSections_ne_empty _ _ _ (by rw [heq])
        | exact addSectionD_ne_empty _ _ _ (by rw [heq])
    · rw [show hasSections data = false by simpa using hs] at h
      simp only [Bool.false_eq_true, if_false] at h
      repeat' split at h
      all_goals simp at h
      all_goals subst h
      all_goals rename_i heq
      all_goals exact addSectionD_ne_empty _ _ _ (by rw [heq])
  · intro h
    subst h
    rfl

/-- C1 witness: the empty mapping does produce the EmptyPayload error. -/
theorem c1_witness : (createPdf ([] : Obj) none true w0).1 = .error .emptyData :=
  (c1_empty_exact [] none true w0).1.mpr rfl

/-- C1 counterexample: the structured payload with an empty `sections` list
and no insights is not rejected — `create_pdf` succeeds and returns the
default report path, contradicting the claim that it fails with
EmptyPayload. -/
theorem c1_counterexample :
    (createPdf [("sections", .vList [])] none true w0).1
      = .ok (resolvePath (defaultOut w0)) := by
  decide

theorem addSectionD_table_eval (t : String) (kvs : Obj) (b : Builder) (w : World) :
    addSectionD [("title", .vStr t), ("type", .vStr "table"), ("data", .vDict kvs)] b w
      = (.ok { b with story := b.story ++ [.para t "Heading2", .tbl (buildTable kvs), .spacer 1 12] }, w) :=
  rfl

theorem addSectionD_chart_auto (t : String) (data : Obj) (b : Builder) (w : World) :
    addSectionD [("title", .vStr t), ("type", .vStr "chart"),
                 ("chart_spec", .vDict (autoChartSpec data))] b w
      = (.ok { b with
                story := b.story ++ [.para t "Heading2",
                  .image (tmpName w.nextTmp) (.vInt 400) (.vInt 250), .spacer 1 12],
                tmpPngs := b.tmpPngs ++ [tmpName w.nextTmp] },
         { w with nextTmp := w.nextTmp + 1,
                  files := tmpName w.nextTmp :: w.files,
                  renders := (tmpName w.nextTmp, autoChartSpec data) :: w.renders }) := by
  simp [addSectionD, addChartImages, createChartW, dGet, dGetD, secTitlePara, pyStr, autoChartSpec]

/-- Evaluation of the flat (non-structured) path of `create_pdf`: it always
succeeds with the resolved output path, and renders exactly one auto chart
(recorded in the render history with its spec) iff `include_chart` holds and
at least 3 top-level values are numeric. -/
theorem createPdf_flat (data : Obj) (op : Option String) (ic : Bool) (w : World)
    (hne : data ≠ []) (hs : hasSections data = false) :
    (createPdf data op ic w).1 = .ok (resolvePath (op.getD (defaultOut w))) ∧
    (createPdf data op ic w).2.renders =
      (if ic && decide (3 ≤ (data.filter (fun kv => numericB kv.2)).length)
       then [(tmpName w.nextTmp, autoChartSpec data)] else []) ++ w.renders := by
  have hie : data.isEmpty = false := by simpa using hne
  unfold createPdf
  rw [hie, hs]
  simp only [Bool.false_eq_true, if_false]
  rw [addSectionD_table_eval]
  by_cases hc : (ic && decide (3 ≤ (data.filter (fun kv => numericB kv.2)).length)) = true
  · simp only [hc, if_true]
    rw [addSectionD_chart_auto]
    constructor
    · simp [saveB, addCover, initBuilder]
    · simp [saveB, addCover, initBuilder]
  · have hc2 : (ic && decide (3 ≤ (data.filter (fun kv => numericB kv.2)).length)) = false := by
      simpa using hc
    simp only [hc2, Bool.false_eq_true, if_false]
    constructor
    · simp [saveB, addCover, initBuilder]
    · simp [saveB, addCover, initBuilder]

/-- Zero-valued numeric field test, as the spec means it (Python `v == 0`;
`False == 0` holds in Python). -/
def isZeroV : Value → Bool
  | .vInt n => n == 0
  | .vFloat q => q == 0
  | .vBool b => !b
  | _ => false

/-- Modelled from the spec (section 4.4, flat path): the labels the claim
mandates for the auto chart — the numeric fields with zero-valued ones
excluded whenever at least one bar remains, otherwise all numeric fields. -/
def specAutoChartLabels (data : Obj) : List String :=
  (if ((data.filter (fun kv => numericB kv.2)).filter (fun kv => !isZeroV kv.2)).isEmpty
   then data.filter (fun kv => numericB kv.2)
   else (data.filter (fun kv => numericB kv.2)).filter (fun kv => !isZeroV kv.2)).map
    (fun kv => kv.1)

/-- C3 (amended): on a flat payload, `create_pdf` succeeds with the resolved
output path and renders exactly one auto-generated bar chart iff
`include_chart` holds and at least 3 top-level values are numeric (by
Python's `isinstance(v, (int, float))`, which counts booleans); the chart's
labels are the names of ALL numeric fields in insertion order —
zero-valued fields are not excluded. -/
theorem c3_auto_chart : ∀ (data : Obj) (op : Option String) (ic : Bool) (w : World),
    hasSections data = false → data ≠ [] →
    (createPdf data op ic w).1 = .ok (resolvePath (op.getD (defaultOut w))) ∧
    (createPdf data op ic w).2.renders =
      (if ic && decide (3 ≤ (data.filter (fun kv => numericB kv.2)).length)
       then [(tmpName w.nextTmp, autoChartSpec data)] else []) ++ w.renders ∧
    dGet (autoChartSpec data) "labels"
      = some (.vList ((data.filter (fun kv => numericB kv.2)).map (fun kv => .vStr kv.1))) := by
  intro data op ic w hs hne
  exact ⟨(createPdf_flat data op ic w hne hs).1, (createPdf_flat data op ic w hne hs).2, rfl⟩

/-- C3 witness: a flat payload with three nonzero numeric fields gets
exactly one auto chart, recorded with its full spec. -/
theorem c3_witness :
    (createPdf [("a", .vInt 1), ("b", .vInt 2), ("c", .vInt 3)] none true w0).1
        = .ok (resolvePath (defaultOut w0)) ∧
    (createPdf [("a", .vInt 1), ("b", .vInt 2), ("c", .vInt 3)] none true w0).2.renders
        = [(tmpName 0, autoChartSpec [("a", .vInt 1), ("b", .vInt 2), ("c", .vInt 3)])] := by
  have h := c3_auto_chart [("a", .vInt 1), ("b", .vInt 2), ("c", .vInt 3)] none true w0
    (by decide) (by decide)
  refine ⟨h.1, ?_⟩
  have h2 := h.2.1
  simpa using h2

/-- C3 counterexample: at the flat payload `{"a": 0, "b": 1, "c": 2}` with
`include_chart` true, the code plots labels `a, b, c` — the zero-valued
field `a` is NOT excluded, although excluding it would leave two bars, so
the labels differ from the ones the claim mandates (`b, c`). -/
theorem c3_counterexample :
    ((createPdf [("a", .vInt 0), ("b", .vInt 1), ("c", .vInt 2)] none true w0).2.renders.map
        (fun pr => dGet pr.2 "labels")
      = [some (.vList [.vStr "a", .vStr "b", .vStr "c"])]) ∧
    ((createPdf [("a", .vInt 0), ("b", .vInt 1), ("c", .vInt 2)] none true w0).2.renders.map
        (fun pr => dGet pr.2 "labels")
      ≠ [some (.vList ((specAutoChartLabels
            [("a", .vInt 0), ("b", .vInt 1), ("c", .vInt 2)]).map Value.vStr))]) := by
  constructor
  · decide
  · decide

/-- C6: whenever the wrapped `create_pdf` call raises, the wrapper performs
exactly one retry whose payload is the single field `error` stating the
failure message, with charts disabled; that retry succeeds and its path is
what the wrapper returns (the hard failure indicator would be returned only
if the retry itself also raised). -/
theorem c6_wrapper_retry : ∀ (v : Value) (op : Option String) (ic : Bool) (w : World)
    (e : PdfError),
    (createPdf (wrapperData v) op ic w).1 = .error e →
    (createPdf [("error", .vStr ("Failed to create PDF: " ++ pdfErrorMsg e))] op false
        ((createPdf (wrapperData v) op ic w).2)).1
      = .ok (resolvePath (op.getD (defaultOut ((createPdf (wrapperData v) op ic w).2)))) ∧
    createPdfWrapper v op ic w
      = (resolvePath (op.getD (defaultOut ((createPdf (wrapperData v) op ic w).2))),
         (createPdf [("error", .vStr ("Failed to create PDF: " ++ pdfErrorMsg e))] op false
            ((createPdf (wrapperData v) op ic w).2)).2) := by
  intro v op ic w e hfail
  rcases hc : createPdf (wrapperData v) op ic w with ⟨r, w1⟩
  rw [hc] at hfail
  have hr : r = Except.error e := hfail
  subst hr
  have herr : hasSections [("error", Value.vStr ("Failed to create PDF: " ++ pdfErrorMsg e))]
      = false := rfl
  have hne2 : ([("error", Value.vStr ("Failed to create PDF: " ++ pdfErrorMsg e))] : Obj)
      ≠ [] := by simp
  have hretry := createPdf_flat
    [("error", .vStr ("Failed to create PDF: " ++ pdfErrorMsg e))] op false w1 hne2 herr
  refine ⟨hretry.1, ?_⟩
  unfold createPdfWrapper
  rw [hc]
  rcases hrt : createPdf [("error", Value.vStr ("Failed to create PDF: " ++ pdfErrorMsg e))]
      op false w1 with ⟨r2, w2⟩
  have hr2 : r2 = .ok (resolvePath (op.getD (defaultOut w1))) := by
    have h1 := hretry.1
    rw [hrt] at h1
    exact h1
  subst hr2
  simp [hrt]

/-- C6 witness: the empty dict makes the first call raise EmptyPayload, and
the wrapper returns the path of the one-field error report built with charts
disabled. -/
theorem c6_witness :
    createPdfWrapper (.vDict []) none true w0
      = (resolvePath ((none : Option String).getD
            (defaultOut ((createPdf (wrapperData (.vDict [])) none true w0).2))),
         (createPdf [("error", .vStr ("Failed to create PDF: "
              ++ pdfErrorMsg PdfError.emptyData))] none false
            ((createPdf (wrapperData (.vDict [])) none true w0).2)).2) :=
  (c6_wrapper_retry (.vDict []) none true w0 .emptyData (by decide)).2

/-- The C2 failing input: a structured payload whose chart section holds two
specs, a valid bar chart followed by an unsupported `triangle` chart. -/
def c2Data : Obj :=
  [("sections", .vList [.vDict
    [("title", .vStr "Charts"), ("type", .vStr "chart"),
     ("chart_spec", .vList
       [.vDict [("chart_type", .vStr "bar"), ("labels", .vList [.vStr "A"]),
                ("values", .vList [.vInt 1])],
        .vDict [("chart_type", .vStr "triangle")]])]])]

/-- C2 (code-bug evaluation): on `c2Data` the first chart's temporary PNG is
created, then the second spec raises UnsupportedChartType; `create_pdf`
propagates the exception without running any cleanup (it neither uses the
builder as a context manager nor has a try/finally in `save`), so the
temporary file — absent before the call — is still on disk afterwards. -/
theorem c2_leak :
    (createPdf c2Data none true w0).1 = .error (.unsupportedChart (.vStr "triangle")) ∧
    tmpName 0 ∉ w0.files ∧
    tmpName 0 ∈ (createPdf c2Data none true w0).2.files := by
  refine ⟨by decide, by decide, by decide⟩
